import Mathlib

/-!
Verification development for a resumable paginated scraper.

The subsystem under study consists of:
* a checkpoint store (`load_json`, `save_checkpoint`, `load_checkpoint`),
* a retrying executor with exponential backoff (`retry_with_backoff`),
* an HTTP transport that classifies outcomes (`make_request`),
* the partition scraper driving the pagination loop (`scrape_project`).

Python floats are embedded as rationals (all delays in the program are
dyadic rationals, exactly representable), machine integers as `Int`/`Nat`,
JSON documents as an inductive `Json` type, and Python exceptions as
explicit `Except` error values.
-/

/-- A JSON value, as produced by parsing the checkpoint file or an API
response body.  Objects are association lists in insertion order, which is
how Python dicts behave.  Numbers are integers: every JSON number this
subsystem reads or compares (totals, page indices) is an integer, and the
only float it ever writes — the checkpoint timestamp — is never read
back, so the clock is modeled by an abstract integer value. -/
inductive Json where
  | null
  | bool (b : Bool)
  | num (n : Int)
  | str (s : String)
  | arr (elems : List Json)
  | obj (fields : List (String × Json))

/-- Python exceptions that the checkpoint-store code can raise. -/
inductive PyErr where
  | ioError
  | typeError
  | attributeError
  | keyError
deriving DecidableEq

/-- The observable state of the checkpoint file on disk:
absent, present but unreadable (I/O error on open/read),
present but not valid JSON, or present with parsed content `j`. -/
inductive FileState where
  | absent
  | unreadable
  | corrupt
  | content (j : Json)

/-- Dictionary lookup on a JSON object's field list (first match). -/
def objLookup : List (String × Json) → String → Option Json
  | [], _ => none
  | (k, v) :: rest, key => if k = key then some v else objLookup rest key

/-- Dictionary assignment `d[key] = v`: replace the first binding of `key`,
or append a new binding, preserving insertion order like a Python dict. -/
def objSet : List (String × Json) → String → Json → List (String × Json)
  | [], key, v => [(key, v)]
  | (k, w) :: rest, key, v =>
      if k = key then (key, v) :: rest else (k, w) :: objSet rest key v

/-- Python truthiness of a JSON value (`if state and ...`, `... or {}`). -/
def truthy : Json → Bool
  | .null => false
  | .bool b => b
  | .num n => decide (n ≠ 0)
  | .str s => decide (s ≠ "")
  | .arr xs => !xs.isEmpty
  | .obj fs => !fs.isEmpty

/-- Python equality of a JSON value against a string (used by list
membership `key in lst`): only a string can equal a string. -/
def jsonEqStr (j : Json) (s : String) : Bool :=
  match j with
  | .str t => decide (t = s)
  | _ => false

/-- Whether the pattern matches at the head of the character list. -/
def matchHere : List Char → List Char → Bool
  | [], _ => true
  | _ :: _, [] => false
  | a :: as, b :: bs => a == b && matchHere as bs

/-- Whether the pattern occurs as a contiguous run in the character list. -/
def hasSub (pat : List Char) : List Char → Bool
  | [] => matchHere pat []
  | c :: rest => matchHere pat (c :: rest) || hasSub pat rest

/-- Python substring membership `key in s`. -/
def strContains (s key : String) : Bool := hasSub key.data s.data

/-- Python `key in j`: key membership for dicts, element equality for
lists, substring test for strings; anything else raises `TypeError`. -/
def jsonContains (j : Json) (key : String) : Except PyErr Bool :=
  match j with
  | .obj fs => .ok (objLookup fs key).isSome
  | .arr xs => .ok (xs.any (fun e => jsonEqStr e key))
  | .str s => .ok (strContains s key)
  | _ => .error .typeError

/-- Python `j[key]` with a string key: dict indexing (`KeyError` when
absent); list or string indexing by a string raises `TypeError`. -/
def jsonIndex (j : Json) (key : String) : Except PyErr Json :=
  match j with
  | .obj fs =>
      match objLookup fs key with
      | some v => .ok v
      | none => .error .keyError
  | _ => .error .typeError

/-- Embeds `utils.load_json`: returns `None` when the file does not exist,
catches only `json.JSONDecodeError` (returning `None`), so an I/O error on
a file that exists but cannot be read propagates. -/
def load_json (f : FileState) : Except PyErr (Option Json) :=
  match f with
  | .absent => .ok none
  | .unreadable => .error .ioError
  | .corrupt => .ok none
  | .content j => .ok (some j)

/-- Embeds `utils.save_checkpoint`: read-modify-write of the whole
checkpoint document.  `state = load_json(...) or {}` replaces a falsy
document by an empty dict; the project's entry is created if missing;
then `state[project]["last_fetched_page"] = last_page` and
`state[project]["last_updated"] = now` mutate that entry, and the whole
document is written back.  A truthy non-dict document, or a pre-existing
non-dict entry for the project, raises `TypeError` (string indexing /
item assignment on a non-dict). -/
def save_checkpoint (project : String) (last_page : Int) (now : Int)
    (f : FileState) : Except PyErr FileState :=
  match load_json f with
  | .error e => .error e
  | .ok st =>
    let state : Json :=
      match st with
      | some j => if truthy j then j else .obj []
      | none => .obj []
    match state with
    | .obj fs =>
        let fs1 :=
          match objLookup fs project with
          | none => fs ++ [(project, Json.obj [])]
          | some _ => fs
        match objLookup fs1 project with
        | some (.obj e) =>
            let e1 := objSet e "last_fetched_page" (.num last_page)
            let e2 := objSet e1 "last_updated" (.num now)
            .ok (.content (.obj (objSet fs1 project (.obj e2))))
        | some _ => .error .typeError
        | none => .error .typeError
    | _ => .error .typeError

/-- Embeds `utils.load_checkpoint`: `state = load_json(file)`;
`if state and project in state: return state[project].get("last_fetched_page", 0)`;
otherwise returns `0`.  `.get` on a non-dict entry raises
`AttributeError`; membership on a non-container raises `TypeError`;
an unreadable file propagates the I/O error from `load_json`. -/
def load_checkpoint (project : String) (f : FileState) : Except PyErr Json :=
  match load_json f with
  | .error e => .error e
  | .ok st =>
    match st with
    | none => .ok (.num 0)
    | some j =>
      if truthy j then
        match jsonContains j project with
        | .error e => .error e
        | .ok true =>
            match jsonIndex j project with
            | .error e => .error e
            | .ok v =>
                match v with
                | .obj e => .ok ((objLookup e "last_fetched_page").getD (.num 0))
                | _ => .error .attributeError
        | .ok false => .ok (.num 0)
      else .ok (.num 0)

/-- An exception as seen by the retry decorator: all it inspects is
whether the exception carries a `status_code` attribute and its value
(`0` encodes wrapped timeout/connection/request errors). -/
structure PyExn where
  status_code : Option Nat
deriving DecidableEq

/-- Configuration of `utils.retry_with_backoff` (decorator arguments). -/
structure RetryConfig where
  max_retries : Nat
  initial_delay : ℚ
  exponential_base : ℚ
  max_delay : ℚ
  retryable_errors : List Nat

/-- The decorator's default `retryable_errors` tuple:
`(0, 429, 500, 502, 503, 504)` where `0` marks timeout/connection errors. -/
def stdRetryable : List Nat := [0, 429, 500, 502, 503, 504]

/-- The configuration `_make_request` is decorated with:
`max_retries=3, initial_delay=2.0` plus the defaults
`exponential_base=2.0, max_delay=60.0` and the standard retryable tuple. -/
def scraperCfg : RetryConfig := ⟨3, 2, 2, 60, stdRetryable⟩

/-- Whether the wrapper raises the exception immediately: true exactly
when the exception has a `status_code` that is not in the retryable
tuple.  An exception with no `status_code` is never raised early. -/
def nonRetryable (cfg : RetryConfig) (e : PyExn) : Bool :=
  match e.status_code with
  | some sc => !(cfg.retryable_errors.contains sc)
  | none => false

/-- The wait computed by the wrapper for a retryable exception on the
given 0-based attempt: `max_delay` for 429, otherwise
`min(initial_delay * exponential_base ** attempt, max_delay)` (the
status-0 branch and the other-retryable branch compute the same value,
and so does the no-`status_code` branch). -/
def waitTime (cfg : RetryConfig) (attempt : Nat) (e : PyExn) : ℚ :=
  match e.status_code with
  | some sc =>
      if sc = 429 then cfg.max_delay
      else if sc = 0 then
        min (cfg.initial_delay * cfg.exponential_base ^ attempt) cfg.max_delay
      else
        min (cfg.initial_delay * cfg.exponential_base ^ attempt) cfg.max_delay
  | none => min (cfg.initial_delay * cfg.exponential_base ^ attempt) cfg.max_delay

/-- Final outcome of the wrapped call: a returned value or a raised
exception. -/
inductive RetryResult (α : Type) where
  | ok (v : α)
  | raised (e : PyExn)
deriving DecidableEq

/-- Observable trace of one run of the retry wrapper: how many times the
wrapped operation was invoked, the sleeps performed (in order), and the
final outcome. -/
structure RetryTrace (α : Type) where
  calls : Nat
  sleeps : List ℚ
  result : RetryResult α
deriving DecidableEq

/-- The loop body of `retry_with_backoff.wrapper`, from the iteration
with the given `attempt` number, with `rem` iterations left after this
one (`attempt + rem = max_retries` at every call).  On an exception: a
non-retryable status is raised at once; otherwise the wait is computed
and, if this is not the last iteration, slept before the next attempt;
on the last iteration the last exception is raised. -/
def retryAux (cfg : RetryConfig) (op : Nat → Except PyExn α) :
    Nat → Nat → RetryTrace α
  | attempt, rem =>
    match op attempt with
    | .ok v => ⟨1, [], .ok v⟩
    | .error e =>
      if nonRetryable cfg e then ⟨1, [], .raised e⟩
      else
        match rem with
        | 0 => ⟨1, [], .raised e⟩
        | rem' + 1 =>
          let w := waitTime cfg attempt e
          let t := retryAux cfg op (attempt + 1) rem'
          ⟨t.calls + 1, w :: t.sleeps, t.result⟩

/-- Embeds `utils.retry_with_backoff` applied to an operation: `op n` is
the outcome of the (n+1)-th invocation of the wrapped function
(`for attempt in range(max_retries + 1)`). -/
def retry_with_backoff (cfg : RetryConfig) (op : Nat → Except PyExn α) :
    RetryTrace α :=
  retryAux cfg op 0 cfg.max_retries

/-- The body of one HTTP response as the transport sees it: no bytes at
all, bytes that fail to parse as JSON, or a parsed JSON value. -/
inductive RespBody where
  | empty
  | unparsable
  | parsed (j : Json)

/-- What one network attempt produces: a network-level exception
(timeout, connection error, other request error) or an HTTP response
with a status code and a body. -/
inductive HttpAttempt where
  | timeout
  | connectionError
  | requestError
  | response (status : Nat) (body : RespBody)

/-- Embeds `JiraScraper._make_request` (one undecorated invocation):
network-level exceptions are wrapped with `status_code = 0`; a status
`>= 400` raises with that status; an empty body or a body that fails to
parse raises with the response's (success) status; a parsed body that is
not a dict raises with the response's status; otherwise the parsed dict
is returned. -/
def make_request (h : HttpAttempt) : Except PyExn Json :=
  match h with
  | .timeout => .error ⟨some 0⟩
  | .connectionError => .error ⟨some 0⟩
  | .requestError => .error ⟨some 0⟩
  | .response status body =>
    if 400 ≤ status then .error ⟨some status⟩
    else
      match body with
      | .empty => .error ⟨some status⟩
      | .unparsable => .error ⟨some status⟩
      | .parsed j =>
        match j with
        | .obj fs => .ok (.obj fs)
        | _ => .error ⟨some status⟩

/-- Embeds `JiraScraper.fetch_issues_page` for one page: the decorated
`_make_request` is run by the retry wrapper (`responses n` is the result
of the (n+1)-th network attempt); any exception escaping the wrapper is
caught and turned into `None`.  On a returned dict: if `'issues'` is
missing, the page is accepted only when `'total'` is present and equal to
`0`; if `'issues'` is present it must be a list; otherwise `None`. -/
def fetch_issues_page (responses : Nat → HttpAttempt) : Option Json :=
  match (retry_with_backoff scraperCfg (fun n => make_request (responses n))).result with
  | .raised _ => none
  | .ok data =>
    match data with
    | .obj fs =>
      match objLookup fs "issues" with
      | none =>
        match objLookup fs "total" with
        | some t =>
            match t with
            | .num q => if q = 0 then some (.obj fs) else none
            | .bool b => if b then none else some (.obj fs)
            | _ => none
        | none => none
      | some issues =>
        match issues with
        | .arr _ => some (.obj fs)
        | _ => none
    | _ => none

/-- One observable side effect of `scrape_project`, in program order:
a page request issued at a given `startAt` offset, a raw payload
persisted for a page index, or a checkpoint write recording a page
index. -/
inductive Event where
  | fetch (startAt : Nat)
  | saveRaw (page : Nat)
  | checkpoint (page : Nat)
deriving DecidableEq

/-- Python `data.get('total', 0)` followed by its use in comparisons and
integer arithmetic: a missing key yields `0`, a JSON number its value, a
JSON bool its int value (Python bools are ints); any other value would
raise on the comparison/arithmetic, embedded as `none`. -/
def getTotal (j : Json) : Option Int :=
  match j with
  | .obj fs =>
    match objLookup fs "total" with
    | none => some 0
    | some (.num n) => some n
    | some (.bool b) => some (if b then 1 else 0)
    | some _ => none
  | _ => none

/-- Embeds `total_pages = (total_issues + self.max_results - 1) // self.max_results`
(Python integer floor division). -/
def computeTotalPages (totalIssues : Int) (pageSize : Nat) : Int :=
  (totalIssues + pageSize - 1).fdiv pageSize

/-- The `for page in range(start_page + 1, total_pages)` loop of
`scrape_project`: `fetchAt` gives the result of `fetch_issues_page` at a
`startAt` offset, `fuel` is the number of remaining loop iterations.
Each successful page appends fetch/save/checkpoint events and counts one
page; the first failed page appends only its fetch event and stops. -/
def pagingLoop (S : Nat) (fetchAt : Nat → Option Json) :
    Nat → Nat → List Event × Nat
  | _, 0 => ([], 0)
  | page, fuel + 1 =>
    match fetchAt (page * S) with
    | some _ =>
        let r := pagingLoop S fetchAt (page + 1) fuel
        (.fetch (page * S) :: .saveRaw page :: .checkpoint page :: r.1, r.2 + 1)
    | none => ([.fetch (page * S)], 0)

/-- Embeds `JiraScraper.scrape_project` from the point where the starting
page is known (`startPage` is `load_checkpoint(...)` when resuming, else
`0`).  `S` is `self.max_results` (page size), `cap` is
`self.max_issues_per_project`.  The first page is fetched at offset
`startPage * S`; on failure the partition yields 0 pages.  Otherwise the
reported total is read from the first page, clamped to a truthy cap,
`total_pages` computed, the first page saved and checkpointed, and the
remaining pages `startPage+1 .. total_pages-1` run through `pagingLoop`.
Returns the event trace and `pages_scraped`; `none` when the envelope's
`total` is a value Python integer arithmetic would raise on. -/
def scrape_project (S : Nat) (cap : Option Int) (startPage : Nat)
    (fetchAt : Nat → Option Json) : Option (List Event × Nat) :=
  match fetchAt (startPage * S) with
  | none => some ([.fetch (startPage * S)], 0)
  | some first =>
    match getTotal first with
    | none => none
    | some t0 =>
      let t : Int :=
        match cap with
        | some c => if c ≠ 0 ∧ c < t0 then c else t0
        | none => t0
      let tp := computeTotalPages t S
      let fuel := (tp - (startPage + 1 : Int)).toNat
      let r := pagingLoop S fetchAt (startPage + 1) fuel
      some (.fetch (startPage * S) :: .saveRaw startPage ::
              .checkpoint startPage :: r.1, r.2 + 1)

/-- The `startAt` offsets of the page requests in a trace, in order. -/
def fetchOffsets (tr : List Event) : List Nat :=
  tr.filterMap (fun e => match e with | .fetch o => some o | _ => none)

/-- The page indices whose raw payload was persisted, in order. -/
def savedPages (tr : List Event) : List Nat :=
  tr.filterMap (fun e => match e with | .saveRaw p => some p | _ => none)

/-- The page indices written to the checkpoint, in order. -/
def ckptWrites (tr : List Event) : List Nat :=
  tr.filterMap (fun e => match e with | .checkpoint p => some p | _ => none)

/-- If every invocation of the operation raises a retryable (or
unclassified) exception, the wrapper runs all remaining iterations:
one extra call per unit of `rem`, sleeping the computed wait between
consecutive attempts, and finally re-raises the last exception. -/
lemma retryAux_always_error {α : Type} (cfg : RetryConfig)
    (op : Nat → Except PyExn α) (errs : Nat → PyExn)
    (hop : ∀ n, op n = .error (errs n))
    (hr : ∀ n, nonRetryable cfg (errs n) = false) :
    ∀ rem attempt, retryAux cfg op attempt rem =
      ⟨rem + 1,
       (List.range rem).map (fun i => waitTime cfg (attempt + i) (errs (attempt + i))),
       .raised (errs (attempt + rem))⟩ := by
  intro rem
  induction rem with
  | zero =>
      intro attempt
      simp [retryAux, hop, hr]
  | succ rem ih =>
      intro attempt
      rw [retryAux, hop attempt]
      simp only [hr, if_neg, Bool.false_eq_true, not_false_eq_true, if_false]
      rw [ih (attempt + 1)]
      have hfun : (fun i => waitTime cfg (attempt + 1 + i) (errs (attempt + 1 + i))) =
          (fun i => waitTime cfg (attempt + (i + 1)) (errs (attempt + (i + 1)))) := by
        funext i
        rw [show attempt + 1 + i = attempt + (i + 1) by omega]
      simp only [RetryTrace.mk.injEq]
      refine ⟨trivial, ?_, ?_⟩
      · rw [List.range_succ_eq_map, List.map_cons, List.map_map, hfun]
        simp [Function.comp_def]
      · rw [show attempt + 1 + rem = attempt + (rem + 1) by omega]

/-- If the very next invocation raises an exception whose status is not
in the retryable tuple, the wrapper raises it immediately: no sleep, no
further invocation. -/
lemma retryAux_fatal {α : Type} (cfg : RetryConfig) (op : Nat → Except PyExn α)
    (attempt rem : Nat) (e : PyExn) (hop : op attempt = .error e)
    (h : nonRetryable cfg e = true) :
    retryAux cfg op attempt rem = ⟨1, [], .raised e⟩ := by
  cases rem <;> simp [retryAux, hop, h]

/-- A status in 500/502/503/504 is in the default retryable tuple. -/
lemma nonRetryable_server (cfg : RetryConfig) (s : Nat)
    (hstd : cfg.retryable_errors = stdRetryable)
    (h : s = 500 ∨ s = 502 ∨ s = 503 ∨ s = 504) :
    nonRetryable cfg ⟨some s⟩ = false := by
  simp only [nonRetryable, hstd, stdRetryable]
  rcases h with h | h | h | h <;> subst h <;> decide

/-- C3: an operation that fails every attempt with a retryable
server-error is invoked exactly `max_retries + 1` times by
`retry_with_backoff`, with exactly `max_retries` sleeps (none after the
final attempt), after which the exception of the last attempt is
raised. -/
theorem retry_exhaustion_c3 (cfg : RetryConfig) (op : Nat → Except PyExn Json)
    (errs : Nat → PyExn)
    (hstd : cfg.retryable_errors = stdRetryable)
    (hop : ∀ n, op n = .error (errs n))
    (hsrv : ∀ n, ∃ s, (errs n).status_code = some s ∧
        (s = 500 ∨ s = 502 ∨ s = 503 ∨ s = 504)) :
    (retry_with_backoff cfg op).calls = cfg.max_retries + 1 ∧
    (retry_with_backoff cfg op).sleeps.length = cfg.max_retries ∧
    (retry_with_backoff cfg op).result = .raised (errs cfg.max_retries) := by
  have hr : ∀ n, nonRetryable cfg (errs n) = false := by
    intro n
    obtain ⟨s, hs, hcase⟩ := hsrv n
    have : (⟨some s⟩ : PyExn) = errs n := by
      cases h : errs n
      simp only [h] at hs
      simp [hs]
    rw [← this]
    exact nonRetryable_server cfg s hstd hcase
  have h := retryAux_always_error cfg op errs hop hr cfg.max_retries 0
  unfold retry_with_backoff
  rw [h]
  refine ⟨rfl, by simp, by simp⟩

/-- Witness for C3 at the scraper's configuration (retry budget 3) and
an operation that always fails with HTTP 503. -/
theorem retry_exhaustion_c3_witness :
    (retry_with_backoff scraperCfg
        (fun _ => (.error ⟨some 503⟩ : Except PyExn Json))).calls = 4 ∧
    (retry_with_backoff scraperCfg
        (fun _ => (.error ⟨some 503⟩ : Except PyExn Json))).sleeps.length = 3 ∧
    (retry_with_backoff scraperCfg
        (fun _ => (.error ⟨some 503⟩ : Except PyExn Json))).result =
      .raised ⟨some 503⟩ := by
  have h := retry_exhaustion_c3 scraperCfg (fun _ => .error ⟨some 503⟩)
    (fun _ => ⟨some 503⟩) rfl (fun _ => rfl)
    (fun _ => ⟨503, rfl, by simp⟩)
  exact h

/-- C5: the wait computed before the next retry is
`min(initial_delay * base^attempt, max_delay)` for the transport-error
class (wrapped status 0) and for the server-error statuses, while the
rate-limited class (429) always waits the fixed `max_delay`,
independent of the attempt number. -/
theorem backoff_policy_c5 (cfg : RetryConfig) (n : Nat) (e : PyExn) :
    ((e.status_code = some 0 ∨ e.status_code = some 500 ∨ e.status_code = some 502 ∨
        e.status_code = some 503 ∨ e.status_code = some 504) →
      waitTime cfg n e = min (cfg.initial_delay * cfg.exponential_base ^ n) cfg.max_delay) ∧
    (e.status_code = some 429 → waitTime cfg n e = cfg.max_delay) := by
  constructor
  · intro h
    rcases h with h | h | h | h | h <;> simp [waitTime, h]
  · intro h
    simp [waitTime, h]

/-- Witness for C5: at attempt 2 with the scraper's configuration, a 503
waits `min(2 * 2^2, 60) = 8` and a 429 waits the fixed 60. -/
theorem backoff_policy_c5_witness :
    waitTime scraperCfg 2 ⟨some 503⟩ =
      min (scraperCfg.initial_delay * scraperCfg.exponential_base ^ 2)
        scraperCfg.max_delay ∧
    waitTime scraperCfg 2 ⟨some 429⟩ = scraperCfg.max_delay := by
  refine ⟨(backoff_policy_c5 scraperCfg 2 ⟨some 503⟩).1 (by simp), ?_⟩
  exact (backoff_policy_c5 scraperCfg 2 ⟨some 429⟩).2 rfl

/-- C10: an exception with no `status_code` attribute is never raised
early: the wrapper retries through the whole budget with the exponential
backoff schedule and only then re-raises the exception of the last
attempt. -/
theorem unclassified_error_c10 (cfg : RetryConfig) (op : Nat → Except PyExn Json)
    (errs : Nat → PyExn)
    (hop : ∀ n, op n = .error (errs n))
    (hnone : ∀ n, (errs n).status_code = none) :
    (retry_with_backoff cfg op).calls = cfg.max_retries + 1 ∧
    (retry_with_backoff cfg op).sleeps =
      (List.range cfg.max_retries).map
        (fun i => min (cfg.initial_delay * cfg.exponential_base ^ i) cfg.max_delay) ∧
    (retry_with_backoff cfg op).result = .raised (errs cfg.max_retries) := by
  have hr : ∀ n, nonRetryable cfg (errs n) = false := by
    intro n
    simp [nonRetryable, hnone n]
  have h := retryAux_always_error cfg op errs hop hr cfg.max_retries 0
  unfold retry_with_backoff
  rw [h]
  refine ⟨rfl, ?_, by simp⟩
  simp only []
  refine List.map_congr_left ?_
  intro i _
  simp [waitTime, hnone]

/-- Witness for C10: an operation always raising a bare exception is
called 4 times under budget 3, sleeping 2, 4, 8 seconds in between. -/
theorem unclassified_error_c10_witness :
    (retry_with_backoff scraperCfg
        (fun _ => (.error ⟨none⟩ : Except PyExn Json))).calls = 4 ∧
    (retry_with_backoff scraperCfg
        (fun _ => (.error ⟨none⟩ : Except PyExn Json))).sleeps =
      (List.range 3).map (fun i => min ((2 : ℚ) * 2 ^ i) 60) ∧
    (retry_with_backoff scraperCfg
        (fun _ => (.error ⟨none⟩ : Except PyExn Json))).result = .raised ⟨none⟩ := by
  have h := unclassified_error_c10 scraperCfg (fun _ => .error ⟨none⟩)
    (fun _ => ⟨none⟩) (fun _ => rfl) (fun _ => rfl)
  exact h

/-- Counterexample to C2: a response with success status 200 and an
empty body makes `_make_request` raise an exception tagged with status
200, which is not in the retryable tuple, so the retry wrapper raises it
on the very first attempt (one invocation, zero sleeps) instead of
retrying up to the budget (which would be 4 invocations). -/
theorem malformed_response_c2_counterexample :
    make_request (.response 200 .empty) = .error ⟨some 200⟩ ∧
    retry_with_backoff scraperCfg (fun _ => make_request (.response 200 .empty)) =
      (⟨1, [], .raised ⟨some 200⟩⟩ : RetryTrace Json) ∧
    scraperCfg.max_retries + 1 = 4 := by
  exact ⟨rfl, rfl, rfl⟩

/-- C2 as amended: a success-status response with an empty body, or a
body that fails to parse as JSON, is raised by the transport as an
exception carrying the response's own (success) status code; since a
success status is not in the retryable tuple, the retrying executor
classifies it as non-retryable and raises it immediately on the first
attempt, with no sleeps and no further invocations. -/
theorem malformed_response_c2 (s : Nat) (hs : s < 400)
    (hnr : stdRetryable.contains s = false) :
    make_request (.response s .empty) = .error ⟨some s⟩ ∧
    make_request (.response s .unparsable) = .error ⟨some s⟩ ∧
    ∀ op : Nat → Except PyExn Json, op 0 = .error ⟨some s⟩ →
      retry_with_backoff scraperCfg op = ⟨1, [], .raised ⟨some s⟩⟩ := by
  have hlt := Nat.not_le.mpr hs
  refine ⟨by simp [make_request, hlt], by simp [make_request, hlt], ?_⟩
  intro op hop
  unfold retry_with_backoff
  refine retryAux_fatal scraperCfg op 0 scraperCfg.max_retries ⟨some s⟩ hop ?_
  rw [show nonRetryable scraperCfg ⟨some s⟩ = !(stdRetryable.contains s) from rfl, hnr]
  rfl

/-- Witness for the amended C2 at status 200. -/
theorem malformed_response_c2_witness :
    make_request (.response 200 .empty) = .error ⟨some 200⟩ ∧
    make_request (.response 200 .unparsable) = .error ⟨some 200⟩ ∧
    ∀ op : Nat → Except PyExn Json, op 0 = .error ⟨some 200⟩ →
      retry_with_backoff scraperCfg op = ⟨1, [], .raised ⟨some 200⟩⟩ := by
  exact malformed_response_c2 200 (by decide) (by decide)

/-- Counterexample to C4: HTTP 501 is a server-error status (5xx), but
it is not in the retryable tuple `(0, 429, 500, 502, 503, 504)`, so the
retry wrapper raises it on the very first attempt — one invocation and
zero sleeps — rather than treating it as a retryable server-error
(which under budget 3 would mean 4 invocations). -/
theorem status_classification_c4_counterexample :
    (500 ≤ 501 ∧ 501 < 600) ∧
    make_request (.response 501 .empty) = .error ⟨some 501⟩ ∧
    retry_with_backoff scraperCfg (fun _ => make_request (.response 501 .empty)) =
      (⟨1, [], .raised ⟨some 501⟩⟩ : RetryTrace Json) := by
  exact ⟨⟨by decide, by decide⟩, rfl, rfl⟩

/-- C4 as amended: for a response with status `s ≥ 400`, the transport
raises an exception tagged `s`; 429 is retryable with the fixed
`max_delay` wait (rate-limited); a status in `{500, 502, 503, 504}` is
retryable with the exponential wait (server-error); any other status
`≥ 400` — including the 5xx codes 501 and 505 — is non-retryable and is
raised to the caller on the very first attempt with zero sleeps and no
further invocations. -/
theorem status_classification_c4 (s : Nat) (b : RespBody) (h4 : 400 ≤ s) :
    make_request (.response s b) = .error ⟨some s⟩ ∧
    (s = 429 → nonRetryable scraperCfg ⟨some s⟩ = false ∧
      ∀ n, waitTime scraperCfg n ⟨some s⟩ = scraperCfg.max_delay) ∧
    ((s = 500 ∨ s = 502 ∨ s = 503 ∨ s = 504) →
      nonRetryable scraperCfg ⟨some s⟩ = false ∧
      ∀ n, waitTime scraperCfg n ⟨some s⟩ =
        min (scraperCfg.initial_delay * scraperCfg.exponential_base ^ n)
          scraperCfg.max_delay) ∧
    (s ≠ 429 ∧ s ≠ 500 ∧ s ≠ 502 ∧ s ≠ 503 ∧ s ≠ 504 →
      ∀ op : Nat → Except PyExn Json, op 0 = .error ⟨some s⟩ →
        retry_with_backoff scraperCfg op = ⟨1, [], .raised ⟨some s⟩⟩) := by
  refine ⟨by simp [make_request, h4], ?_, ?_, ?_⟩
  · intro h
    subst h
    exact ⟨by decide, fun n => by simp [waitTime]⟩
  · intro h
    refine ⟨nonRetryable_server scraperCfg s rfl h, fun n => ?_⟩
    rcases h with h | h | h | h <;> subst h <;> simp [waitTime]
  · intro h op hop
    have hne0 : s ≠ 0 := by omega
    have hcont : stdRetryable.contains s = false := by
      simp only [stdRetryable, List.contains_cons, List.contains_nil,
        Bool.or_eq_false_iff, beq_eq_false_iff_ne, ne_eq]
      obtain ⟨h1, h2, h3, h4', h5⟩ := h
      exact ⟨hne0, h1, h2, h3, h4', h5, trivial⟩
    unfold retry_with_backoff
    refine retryAux_fatal scraperCfg op 0 scraperCfg.max_retries ⟨some s⟩ hop ?_
    rw [show nonRetryable scraperCfg ⟨some s⟩ = !(stdRetryable.contains s) from rfl, hcont]
    rfl

/-- Witness for the amended C4 at status 404 (non-rate-limit 4xx). -/
theorem status_classification_c4_witness :
    make_request (.response 404 .empty) = .error ⟨some 404⟩ ∧
    retry_with_backoff scraperCfg (fun _ => (.error ⟨some 404⟩ : Except PyExn Json)) =
      ⟨1, [], .raised ⟨some 404⟩⟩ := by
  have h := status_classification_c4 404 .empty (by decide)
  exact ⟨h.1, h.2.2.2 (by decide)
    (fun _ => (.error ⟨some 404⟩ : Except PyExn Json)) rfl⟩

/-- Assignment writes the assigned value under the assigned key. -/
lemma objLookup_objSet_same (fs : List (String × Json)) (k : String) (v : Json) :
    objLookup (objSet fs k v) k = some v := by
  induction fs with
  | nil => simp [objSet, objLookup]
  | cons hd tl ih =>
      obtain ⟨k', v'⟩ := hd
      by_cases h : k' = k
      · subst h
        simp [objSet, objLookup]
      · simp [objSet, objLookup, h, ih]

/-- Assignment leaves every other key's binding unchanged. -/
lemma objLookup_objSet_other (fs : List (String × Json)) (k q : String) (v : Json)
    (h : q ≠ k) : objLookup (objSet fs k v) q = objLookup fs q := by
  induction fs with
  | nil => simp [objSet, objLookup, Ne.symm h]
  | cons hd tl ih =>
      obtain ⟨k', v'⟩ := hd
      by_cases hk : k' = k
      · subst hk
        simp [objSet, objLookup, Ne.symm h]
      · simp only [objSet, if_neg hk, objLookup]
        rw [ih]

/-- Appending a binding for a different key does not change a lookup. -/
lemma objLookup_append_other (fs : List (String × Json)) (k q : String) (v : Json)
    (h : q ≠ k) : objLookup (fs ++ [(k, v)]) q = objLookup fs q := by
  induction fs with
  | nil => simp [objLookup, Ne.symm h]
  | cons hd tl ih =>
      obtain ⟨k', v'⟩ := hd
      simp only [List.cons_append, objLookup]
      rw [show tl.append [(k, v)] = tl ++ [(k, v)] from rfl, ih]

/-- A dict with at least one binding is truthy. -/
lemma truthy_of_lookup_isSome (fs : List (String × Json)) (q : String)
    (h : (objLookup fs q).isSome) : truthy (.obj fs) = true := by
  cases fs with
  | nil => simp [objLookup] at h
  | cons hd tl => simp [truthy]

/-- Behaviour of `load_checkpoint` when the parsed document is a dict
whose entry for the project is itself a dict: the stored
`last_fetched_page` is returned, defaulting to `0`. -/
lemma load_checkpoint_of_entry (project : String) (fs e : List (String × Json))
    (hk : objLookup fs project = some (.obj e)) :
    load_checkpoint project (.content (.obj fs)) =
      .ok ((objLookup e "last_fetched_page").getD (.num 0)) := by
  have htr : truthy (.obj fs) = true :=
    truthy_of_lookup_isSome fs project (by simp [hk])
  simp [load_checkpoint, load_json, htr, jsonContains, jsonIndex, hk]

/-- Behaviour of `load_checkpoint` when the parsed document is a dict
with no entry for the project: returns `0`. -/
lemma load_checkpoint_no_entry (project : String) (fs : List (String × Json))
    (hk : objLookup fs project = none) :
    load_checkpoint project (.content (.obj fs)) = .ok (.num 0) := by
  cases htr : truthy (.obj fs) with
  | false => simp [load_checkpoint, load_json, htr]
  | true => simp [load_checkpoint, load_json, htr, jsonContains, hk]

/-- In any run of the paging loop the checkpoint writes and raw-payload
saves are exactly the consecutive page indices from the starting page,
one per page scraped, and at most `fuel` pages are scraped. -/
lemma pagingLoop_trace (S : Nat) (f : Nat → Option Json) :
    ∀ fuel page,
      (pagingLoop S f page fuel).2 ≤ fuel ∧
      ckptWrites (pagingLoop S f page fuel).1 =
        List.range' page (pagingLoop S f page fuel).2 ∧
      savedPages (pagingLoop S f page fuel).1 =
        List.range' page (pagingLoop S f page fuel).2 := by
  intro fuel
  induction fuel with
  | zero =>
      intro page
      simp [pagingLoop, ckptWrites, savedPages]
  | succ fuel ih =>
      intro page
      rw [pagingLoop]
      cases hf : f (page * S) with
      | none => simp [ckptWrites, savedPages]
      | some j =>
          obtain ⟨h1, h2, h3⟩ := ih (page + 1)
          refine ⟨by simpa using h1, ?_, ?_⟩
          · simp only [ckptWrites, List.filterMap_cons] at h2 ⊢
            simp only [h2]
            exact (List.range'_succ page (pagingLoop S f (page + 1) fuel).2 1).symm
          · simp only [savedPages, List.filterMap_cons] at h3 ⊢
            simp only [h3]
            exact (List.range'_succ page (pagingLoop S f (page + 1) fuel).2 1).symm

/-- When every fetch succeeds, the paging loop runs to the end of its
range: it scrapes exactly `fuel` pages and issues exactly the requests
at offsets `page*S, (page+1)*S, ...` in order. -/
lemma pagingLoop_allSuccess (S : Nat) (f : Nat → Option Json)
    (hs : ∀ n, (f n).isSome) :
    ∀ fuel page,
      (pagingLoop S f page fuel).2 = fuel ∧
      fetchOffsets (pagingLoop S f page fuel).1 =
        (List.range' page fuel).map (fun p => p * S) := by
  intro fuel
  induction fuel with
  | zero =>
      intro page
      simp [pagingLoop, fetchOffsets]
  | succ fuel ih =>
      intro page
      rw [pagingLoop]
      cases hf : f (page * S) with
      | none => exact absurd (hs (page * S)) (by simp [hf])
      | some j =>
          obtain ⟨h1, h2⟩ := ih (page + 1)
          refine ⟨by simpa using h1, ?_⟩
          simp only [fetchOffsets, List.filterMap_cons] at h2 ⊢
          simp only [h2]
          rw [List.range'_succ page fuel 1, List.map_cons]

/-- The trace of a successful first page followed by the paging loop has
checkpoint writes and raw saves forming the consecutive range from the
start page. -/
lemma scrapeTrace_aux (S startPage : Nat) (fetchAt : Nat → Option Json)
    (fuel : Nat) :
    ckptWrites (Event.fetch (startPage * S) :: Event.saveRaw startPage ::
        Event.checkpoint startPage :: (pagingLoop S fetchAt (startPage + 1) fuel).1) =
      List.range' startPage ((pagingLoop S fetchAt (startPage + 1) fuel).2 + 1) ∧
    savedPages (Event.fetch (startPage * S) :: Event.saveRaw startPage ::
        Event.checkpoint startPage :: (pagingLoop S fetchAt (startPage + 1) fuel).1) =
      List.range' startPage ((pagingLoop S fetchAt (startPage + 1) fuel).2 + 1) := by
  obtain ⟨h1, h2, h3⟩ := pagingLoop_trace S fetchAt fuel (startPage + 1)
  constructor
  · rw [show ckptWrites (Event.fetch (startPage * S) :: Event.saveRaw startPage ::
        Event.checkpoint startPage :: (pagingLoop S fetchAt (startPage + 1) fuel).1) =
        startPage :: ckptWrites (pagingLoop S fetchAt (startPage + 1) fuel).1 from rfl]
    rw [h2]
    exact (List.range'_succ startPage _ 1).symm
  · rw [show savedPages (Event.fetch (startPage * S) :: Event.saveRaw startPage ::
        Event.checkpoint startPage :: (pagingLoop S fetchAt (startPage + 1) fuel).1) =
        startPage :: savedPages (pagingLoop S fetchAt (startPage + 1) fuel).1 from rfl]
    rw [h3]
    exact (List.range'_succ startPage _ 1).symm

/-- In any completed run of `scrape_project`, the checkpoint writes and
the raw saves are exactly the consecutive page indices
`startPage, startPage+1, ...`, one per page counted. -/
lemma scrape_project_trace (S : Nat) (cap : Option Int) (startPage : Nat)
    (fetchAt : Nat → Option Json) (tr : List Event) (c : Nat)
    (h : scrape_project S cap startPage fetchAt = some (tr, c)) :
    ckptWrites tr = List.range' startPage c ∧
    savedPages tr = List.range' startPage c := by
  unfold scrape_project at h
  cases hf : fetchAt (startPage * S) with
  | none =>
      rw [hf] at h
      simp only [Option.some.injEq, Prod.mk.injEq] at h
      obtain ⟨htr, hc⟩ := h
      subst htr
      subst hc
      simp [ckptWrites, savedPages]
  | some first =>
      rw [hf] at h
      dsimp only at h
      cases hT : getTotal first with
      | none => rw [hT] at h; simp at h
      | some t0 =>
          rw [hT] at h
          dsimp only at h
          simp only [Option.some.injEq, Prod.mk.injEq] at h
          obtain ⟨htr, hc⟩ := h
          subst htr
          subst hc
          exact scrapeTrace_aux S startPage fetchAt _

/-- On a natural total, the integer floor division computed by the code
agrees with natural-number division of `T + S - 1` by `S`. -/
lemma computeTotalPages_natCast (T S : Nat) (hS : 0 < S) :
    computeTotalPages (T : Int) S = ((T + S - 1) / S : ℕ) := by
  unfold computeTotalPages
  rw [Int.fdiv_eq_ediv _ (by exact_mod_cast Nat.zero_le S)]
  rw [show ((T : ℕ) : ℤ) + ((S : ℕ) : ℤ) - 1 = (((T + S - 1 : ℕ)) : ℤ) by omega]
  exact (Int.ofNat_div _ _).symm

/-- The integer `(T + S - 1) // S` computed by the code equals the
ceiling of `T / S` for a natural total `T` and positive page size. -/
lemma computeTotalPages_eq_ceil (T S : Nat) (hS : 0 < S) :
    computeTotalPages (T : Int) S = ⌈(T : ℚ) / (S : ℚ)⌉ := by
  rw [computeTotalPages_natCast T S hS]
  have hS' : (0 : ℚ) < S := by exact_mod_cast hS
  set q : ℕ := (T + S - 1) / S with hqdef
  obtain ⟨hub, hlb⟩ : T ≤ q * S ∧ q * S < T + S := by
    have h1 := Nat.div_add_mod (T + S - 1) S
    have h2 := Nat.mod_lt (T + S - 1) hS
    rw [← hqdef, Nat.mul_comm S q] at h1
    generalize q * S = A at h1 ⊢
    generalize (T + S - 1) % S = r at h1 h2
    omega
  symm
  rw [Int.ceil_eq_iff]
  constructor
  · rw [lt_div_iff hS']
    have hc : (q : ℚ) * S < T + S := by exact_mod_cast hlb
    push_cast
    linarith
  · rw [div_le_iff hS']
    have hc : (T : ℚ) ≤ q * S := by exact_mod_cast hub
    push_cast
    linarith

/-- Appending a binding for a key that was absent makes it found. -/
lemma objLookup_append_self (fs : List (String × Json)) (k : String) (v : Json)
    (hk : objLookup fs k = none) :
    objLookup (fs ++ [(k, v)]) k = some v := by
  induction fs with
  | nil => simp [objLookup]
  | cons hd tl ih =>
      obtain ⟨k', v'⟩ := hd
      by_cases hq : k' = k
      · simp [objLookup, hq] at hk
      · simp only [objLookup, if_neg hq] at hk
        simp only [List.cons_append, objLookup, if_neg hq]
        exact ih hk

/-- Any successful `save_checkpoint` on a parsed dict document yields a
dict document in which every other partition's binding is unchanged and
the given partition's entry is a dict recording exactly the saved page
and timestamp. -/
lemma save_checkpoint_reduce (project : String) (last_page : Int) (now : Int)
    (fs : List (String × Json)) (htr : truthy (.obj fs) = true)
    (e : List (String × Json))
    (he : objLookup (match objLookup fs project with
        | none => fs ++ [(project, Json.obj [])]
        | some _ => fs) project = some (.obj e)) :
    save_checkpoint project last_page now (.content (.obj fs)) =
      .ok (.content (.obj (objSet
        (match objLookup fs project with
          | none => fs ++ [(project, Json.obj [])]
          | some _ => fs) project
        (.obj (objSet (objSet e "last_fetched_page" (.num last_page))
          "last_updated" (.num now)))))) := by
  simp only [save_checkpoint, load_json, htr, if_true]
  rw [he]

lemma save_checkpoint_ok (project : String) (last_page : Int) (now : Int)
    (fs : List (String × Json)) (f' : FileState)
    (h : save_checkpoint project last_page now (.content (.obj fs)) = .ok f') :
    ∃ gs, f' = .content (.obj gs) ∧
      (∀ q, q ≠ project → objLookup gs q = objLookup fs q) ∧
      ∃ e2, objLookup gs project = some (.obj e2) ∧
        objLookup e2 "last_fetched_page" = some (.num last_page) ∧
        objLookup e2 "last_updated" = some (.num now) := by
  have hne : ("last_fetched_page" : String) ≠ "last_updated" := by decide
  cases fs with
  | nil =>
      have hred : save_checkpoint project last_page now (.content (.obj [])) =
          .ok (.content (.obj [(project,
            .obj (objSet (objSet [] "last_fetched_page" (.num last_page))
              "last_updated" (.num now)))])) := by
        simp [save_checkpoint, load_json, truthy, objLookup, objSet]
      rw [hred] at h
      injection h with h2
      refine ⟨_, h2.symm, ?_, ?_⟩
      · intro q hq
        simp [objLookup, Ne.symm hq]
      · refine ⟨objSet (objSet [] "last_fetched_page" (.num last_page))
            "last_updated" (.num now), by simp [objLookup], ?_, ?_⟩
        · rw [objLookup_objSet_other _ _ _ _ hne, objLookup_objSet_same]
        · rw [objLookup_objSet_same]
  | cons hd tl =>
      have htr : truthy (.obj (hd :: tl)) = true := by simp [truthy]
      cases hk : objLookup (hd :: tl) project with
      | some v =>
          cases v with
          | obj e =>
              have hred := save_checkpoint_reduce project last_page now (hd :: tl)
                htr e (by rw [hk]; exact hk)
              rw [hk] at hred
              rw [hred] at h
              injection h with h2
              refine ⟨_, h2.symm, ?_, ?_⟩
              · intro q hq
                exact objLookup_objSet_other _ _ _ _ hq
              · refine ⟨_, objLookup_objSet_same _ _ _, ?_, ?_⟩
                · rw [objLookup_objSet_other _ _ _ _ hne, objLookup_objSet_same]
                · rw [objLookup_objSet_same]
          | null => simp [save_checkpoint, load_json, htr, hk] at h
          | bool b => simp [save_checkpoint, load_json, htr, hk] at h
          | num q => simp [save_checkpoint, load_json, htr, hk] at h
          | str s => simp [save_checkpoint, load_json, htr, hk] at h
          | arr xs => simp [save_checkpoint, load_json, htr, hk] at h
      | none =>
          have happ := objLookup_append_self (hd :: tl) project (Json.obj []) hk
          have hred := save_checkpoint_reduce project last_page now (hd :: tl)
            htr [] (by rw [hk]; exact happ)
          rw [hk] at hred
          rw [hred] at h
          injection h with h2
          refine ⟨_, h2.symm, ?_, ?_⟩
          · intro q hq
            rw [objLookup_objSet_other _ _ _ _ hq,
              objLookup_append_other _ _ _ _ hq]
          · refine ⟨_, objLookup_objSet_same _ _ _, ?_, ?_⟩
            · rw [objLookup_objSet_other _ _ _ _ hne, objLookup_objSet_same]
            · rw [objLookup_objSet_same]

/-- When every fetch succeeds and the first page reports total `T`,
`scrape_project` (no cap) runs the paging loop with fuel
`total_pages - (startPage + 1)` and returns the full trace. -/
lemma scrape_project_allSuccess (S startPage T : Nat)
    (fetchAt : Nat → Option Json)
    (hsucc : ∀ n, (fetchAt n).isSome)
    (hfirst : ∀ j, fetchAt (startPage * S) = some j → getTotal j = some (T : Int)) :
    scrape_project S none startPage fetchAt =
      some (Event.fetch (startPage * S) :: Event.saveRaw startPage ::
          Event.checkpoint startPage ::
          (pagingLoop S fetchAt (startPage + 1)
            ((computeTotalPages (T : Int) S - (startPage + 1 : Int)).toNat)).1,
        (computeTotalPages (T : Int) S - (startPage + 1 : Int)).toNat + 1) := by
  obtain ⟨j, hj⟩ := Option.isSome_iff_exists.mp (hsucc (startPage * S))
  have hT := hfirst j hj
  unfold scrape_project
  rw [hj]
  dsimp only
  rw [hT]
  dsimp only
  rw [(pagingLoop_allSuccess S fetchAt hsucc _ (startPage + 1)).1]

/-- C6: the partition scraper computes the page count as the ceiling of
total over page size; in particular for total 237 and page size 50 it
computes 5 pages and, with every fetch succeeding from page 0, persists
exactly the five raw pages 0..4 with the checkpoint writes ending at
page 4 and reports 5 pages scraped. -/
theorem pagination_count_c6 :
    (∀ T S : Nat, 0 < S → computeTotalPages (T : Int) S = ⌈(T : ℚ) / (S : ℚ)⌉) ∧
    computeTotalPages (237 : Int) 50 = 5 ∧
    (scrape_project 50 none 0
        (fun _ => some (.obj [("total", .num 237), ("issues", .arr [])]))).map
        (fun r => (savedPages r.1, ckptWrites r.1, r.2)) =
      some ([0, 1, 2, 3, 4], [0, 1, 2, 3, 4], 5) ∧
    [0, 1, 2, 3, 4].getLast? = some 4 := by
  refine ⟨computeTotalPages_eq_ceil, by decide, by decide, by decide⟩

/-- Witness for C6's universally quantified ceiling clause at
total 237, page size 50. -/
theorem pagination_count_c6_witness :
    computeTotalPages (((237 : Nat)) : Int) 50 = ⌈(((237 : Nat)) : ℚ) / (((50 : Nat)) : ℚ)⌉ :=
  pagination_count_c6.1 237 50 (by decide)

/-- Counterexample to C7: the subsystem's own `scrape_project` with
resume disabled starts from page 0 and, after its first successful page,
writes checkpoint 0 — overwriting a previously recorded page 4 with 0,
so the recorded last-fetched page index decreases under an operation of
this subsystem. -/
theorem checkpoint_lifecycle_c7_counterexample :
    (scrape_project 50 none 0
        (fun _ => some (.obj [("total", .num 40), ("issues", .arr [])]))).map
        (fun r => ckptWrites r.1) = some [0] ∧
    save_checkpoint "SPARK" 0 7
        (.content (.obj [("SPARK",
          .obj [("last_fetched_page", .num 4), ("last_updated", .num 3)])])) =
      .ok (.content (.obj [("SPARK",
          .obj [("last_fetched_page", .num 0), ("last_updated", .num 7)])])) ∧
    (0 : Int) < 4 := by
  refine ⟨by decide, rfl, by decide⟩

/-- C7 as amended (resume enabled): in any run of `scrape_project`
starting from the checkpointed page `k`, the checkpoint writes are
exactly `k, k+1, ...` — created with the first successful page, strictly
forward-consecutive, non-decreasing and never below `k`; and a
successful `save_checkpoint` never removes any partition's entry from
the document. -/
theorem checkpoint_lifecycle_c7 :
    (∀ S cap startPage fetchAt tr c,
      scrape_project S cap startPage fetchAt = some (tr, c) →
        ckptWrites tr = List.range' startPage c ∧
        List.Chain' (· ≤ ·) (ckptWrites tr) ∧
        ∀ p ∈ ckptWrites tr, startPage ≤ p) ∧
    (∀ project last_page now fs f' q,
      save_checkpoint project last_page now (.content (.obj fs)) = .ok f' →
      (objLookup fs q).isSome →
        ∃ gs, f' = .content (.obj gs) ∧ (objLookup gs q).isSome) := by
  constructor
  · intro S cap startPage fetchAt tr c h
    obtain ⟨h1, _⟩ := scrape_project_trace S cap startPage fetchAt tr c h
    rw [h1]
    refine ⟨rfl, ?_, ?_⟩
    · exact ((List.pairwise_lt_range' startPage c).imp le_of_lt).chain'
    · intro p hp
      exact (List.mem_range'_1.mp hp).1
  · intro project last_page now fs f' q h hq
    obtain ⟨gs, hgs, hframe, e2, he2, _, _⟩ :=
      save_checkpoint_ok project last_page now fs f' h
    by_cases hqp : q = project
    · subst hqp
      exact ⟨gs, hgs, by simp [he2]⟩
    · exact ⟨gs, hgs, by rw [hframe q hqp]; exact hq⟩

/-- Witness for C7: a concrete resumed run from checkpoint 2 with all
fetches succeeding, and a concrete save preserving another partition's
entry. -/
theorem checkpoint_lifecycle_c7_witness :
    (ckptWrites [Event.fetch 100, Event.saveRaw 2, Event.checkpoint 2,
        Event.fetch 150, Event.saveRaw 3, Event.checkpoint 3] =
      List.range' 2 2 ∧
      List.Chain' (· ≤ ·) (ckptWrites [Event.fetch 100, Event.saveRaw 2,
        Event.checkpoint 2, Event.fetch 150, Event.saveRaw 3, Event.checkpoint 3]) ∧
      ∀ p ∈ ckptWrites [Event.fetch 100, Event.saveRaw 2, Event.checkpoint 2,
        Event.fetch 150, Event.saveRaw 3, Event.checkpoint 3], 2 ≤ p) ∧
    ∃ gs, (FileState.content (.obj [("KAFKA", Json.obj [("last_fetched_page",
        Json.num 9), ("last_updated", Json.num 1)]), ("SPARK",
        Json.obj [("last_fetched_page", Json.num 3), ("last_updated",
        Json.num 7)])])) = .content (.obj gs) ∧
      (objLookup gs "KAFKA").isSome := by
  constructor
  · refine (checkpoint_lifecycle_c7.1 50 none 2
      (fun _ => some (.obj [("total", .num 200), ("issues", .arr [])]))
      [Event.fetch 100, Event.saveRaw 2, Event.checkpoint 2,
        Event.fetch 150, Event.saveRaw 3, Event.checkpoint 3] 2 ?_)
    decide
  · refine checkpoint_lifecycle_c7.2 "SPARK" 3 7
      [("KAFKA", Json.obj [("last_fetched_page", Json.num 9),
          ("last_updated", Json.num 1)]),
        ("SPARK", Json.obj [("last_fetched_page", Json.num 2),
          ("last_updated", Json.num 5)])] _ "KAFKA" rfl (by decide)

/-- C8: saving a checkpoint for one partition rewrites the whole
document but changes only that partition's entry — setting its
`last_fetched_page` and `last_updated` — while every other partition's
entry is looked up unchanged in the persisted document. -/
theorem checkpoint_frame_c8 (project : String) (last_page : Int) (now : Int)
    (fs : List (String × Json)) (f' : FileState)
    (h : save_checkpoint project last_page now (.content (.obj fs)) = .ok f') :
    ∃ gs, f' = .content (.obj gs) ∧
      (∀ q, q ≠ project → objLookup gs q = objLookup fs q) ∧
      ∃ e2, objLookup gs project = some (.obj e2) ∧
        objLookup e2 "last_fetched_page" = some (.num last_page) ∧
        objLookup e2 "last_updated" = some (.num now) :=
  save_checkpoint_ok project last_page now fs f' h

/-- Witness for C8: saving SPARK page 3 in a two-partition document
leaves KAFKA's entry unchanged. -/
theorem checkpoint_frame_c8_witness :
    ∃ gs, (FileState.content (.obj [("KAFKA",
        Json.obj [("last_fetched_page", Json.num 9), ("last_updated", Json.num 1)]),
      ("SPARK",
        Json.obj [("last_fetched_page", Json.num 3), ("last_updated", Json.num 7)])]))
        = .content (.obj gs) ∧
      (∀ q, q ≠ "SPARK" → objLookup gs q = objLookup [("KAFKA",
        Json.obj [("last_fetched_page", Json.num 9), ("last_updated", Json.num 1)]),
        ("SPARK",
        Json.obj [("last_fetched_page", Json.num 2), ("last_updated", Json.num 5)])] q) ∧
      ∃ e2, objLookup gs "SPARK" = some (.obj e2) ∧
        objLookup e2 "last_fetched_page" = some (.num 3) ∧
        objLookup e2 "last_updated" = some (.num 7) :=
  checkpoint_frame_c8 "SPARK" 3 7
    [("KAFKA", Json.obj [("last_fetched_page", Json.num 9),
        ("last_updated", Json.num 1)]),
      ("SPARK", Json.obj [("last_fetched_page", Json.num 2),
        ("last_updated", Json.num 5)])] _ rfl

/-- Counterexample to C9: loading the checkpoint can raise.  A readable
file holding valid JSON in which the partition's entry is a number
(not a mapping) raises `AttributeError` from `.get`, and a file that
exists but cannot be read propagates the I/O error — in both cases
`load_checkpoint` does not return 0, contradicting "never raises". -/
theorem load_checkpoint_c9_counterexample :
    load_checkpoint "SPARK" (.content (.obj [("SPARK", .num 5)])) =
      .error .attributeError ∧
    load_checkpoint "SPARK" .unreadable = .error .ioError := ⟨rfl, rfl⟩

/-- C9 as amended: loading never raises — returning the recorded
`last_fetched_page` when the partition has one recorded and 0 otherwise
— when the checkpoint file is absent, fails to parse, or parses to a
dict whose entry for the partition (if any) is itself a dict.  (An
unreadable file, or a well-formed-JSON document whose entry for the
partition is not a dict, raises instead.) -/
theorem load_checkpoint_c9 (project : String) :
    load_checkpoint project .absent = .ok (.num 0) ∧
    load_checkpoint project .corrupt = .ok (.num 0) ∧
    (∀ fs, objLookup fs project = none →
      load_checkpoint project (.content (.obj fs)) = .ok (.num 0)) ∧
    (∀ fs e, objLookup fs project = some (.obj e) →
      load_checkpoint project (.content (.obj fs)) =
        .ok ((objLookup e "last_fetched_page").getD (.num 0))) := by
  refine ⟨rfl, rfl, ?_, ?_⟩
  · intro fs hk
    exact load_checkpoint_no_entry project fs hk
  · intro fs e hk
    exact load_checkpoint_of_entry project fs e hk

/-- Witness for C9 at a concrete document recording page 4 for SPARK,
and one with no SPARK entry. -/
theorem load_checkpoint_c9_witness :
    load_checkpoint "SPARK" (.content (.obj [("SPARK",
        .obj [("last_fetched_page", .num 4), ("last_updated", .num 3)])])) =
      .ok (.num 4) ∧
    load_checkpoint "SPARK" (.content (.obj [("KAFKA",
        .obj [("last_fetched_page", .num 9)])])) = .ok (.num 0) := by
  constructor
  · exact (load_checkpoint_c9 "SPARK").2.2.2
      [("SPARK", .obj [("last_fetched_page", .num 4), ("last_updated", .num 3)])]
      [("last_fetched_page", .num 4), ("last_updated", .num 3)] rfl
  · exact (load_checkpoint_c9 "SPARK").2.2.1
      [("KAFKA", .obj [("last_fetched_page", .num 9)])] rfl

/-- Counterexample to C1: with pages 0..1 persisted and the checkpoint
recording page 1 (the code's own invariant state), a resumed run's first
request is at offset 1 * 50 = 50, i.e. page 1 — a page that is already
persisted is re-fetched, contradicting "never re-fetching a page already
persisted". -/
theorem resume_pagination_c1_counterexample :
    load_checkpoint "SPARK" (.content (.obj [("SPARK",
        .obj [("last_fetched_page", .num 1), ("last_updated", .num 3)])])) =
      .ok (.num 1) ∧
    (scrape_project 50 none 1
        (fun _ => some (.obj [("total", .num 150), ("issues", .arr [])]))).map
        (fun r => fetchOffsets r.1) = some [50, 100] ∧
    1 * 50 = 50 := ⟨rfl, by decide, rfl⟩

/-- C1 as amended: resuming from a checkpoint that records page `k`
(with pages 0..k persisted), a run in which every fetch succeeds issues
its first request at offset `k * S` — re-fetching at most the
checkpointed page `k` itself — and then covers exactly the page indices
from `k` to the last page, each requested once: no page before `k` is
requested, no page in `[k, total_pages)` is skipped, and no page is
requested twice. -/
theorem resume_pagination_c1 (S : Nat) (hS : 0 < S) (project : String)
    (fs e : List (String × Json)) (k T tp : Nat) (fetchAt : Nat → Option Json)
    (hk : objLookup fs project = some (.obj e))
    (hlp : objLookup e "last_fetched_page" = some (.num (k : Int)))
    (hsucc : ∀ n, (fetchAt n).isSome)
    (hfirst : ∀ j, fetchAt (k * S) = some j → getTotal j = some (T : Int))
    (htp : (tp : Int) = computeTotalPages (T : Int) S)
    (hklt : k < tp) :
    load_checkpoint project (.content (.obj fs)) = .ok (.num (k : Int)) ∧
    ∃ tr, scrape_project S none k fetchAt = some (tr, tp - k) ∧
      fetchOffsets tr = (List.range' k (tp - k)).map (fun p => p * S) ∧
      (fetchOffsets tr).head? = some (k * S) ∧
      (∀ p : Nat, p * S ∈ fetchOffsets tr → k ≤ p) ∧
      (∀ p : Nat, k ≤ p → p < tp → p * S ∈ fetchOffsets tr) ∧
      (fetchOffsets tr).Nodup ∧
      savedPages tr = List.range' k (tp - k) := by
  have hload := load_checkpoint_of_entry project fs e hk
  rw [hlp] at hload
  refine ⟨by simpa using hload, ?_⟩
  have hrun := scrape_project_allSuccess S k T fetchAt hsucc hfirst
  have hfuel : (computeTotalPages (T : Int) S - ((k : Nat) + 1 : Int)).toNat =
      tp - (k + 1) := by
    rw [← htp]
    omega
  rw [hfuel] at hrun
  have hcnt : tp - (k + 1) + 1 = tp - k := by omega
  rw [hcnt] at hrun
  have hL2 := (pagingLoop_allSuccess S fetchAt hsucc (tp - (k + 1)) (k + 1)).1
  have hLoff := (pagingLoop_allSuccess S fetchAt hsucc (tp - (k + 1)) (k + 1)).2
  obtain ⟨_, _, hLsv⟩ := pagingLoop_trace S fetchAt (tp - (k + 1)) (k + 1)
  have hoff : fetchOffsets (Event.fetch (k * S) :: Event.saveRaw k ::
      Event.checkpoint k :: (pagingLoop S fetchAt (k + 1) (tp - (k + 1))).1) =
      (List.range' k (tp - k)).map (fun p => p * S) := by
    rw [show fetchOffsets (Event.fetch (k * S) :: Event.saveRaw k ::
        Event.checkpoint k :: (pagingLoop S fetchAt (k + 1) (tp - (k + 1))).1) =
        (k * S) :: fetchOffsets (pagingLoop S fetchAt (k + 1) (tp - (k + 1))).1
        from rfl]
    rw [hLoff, show tp - k = (tp - (k + 1)) + 1 by omega, List.range'_succ,
      List.map_cons]
  refine ⟨_, hrun, hoff, ?_, ?_, ?_, ?_, ?_⟩
  · rw [hoff, show tp - k = (tp - (k + 1)) + 1 by omega, List.range'_succ,
      List.map_cons]
    rfl
  · intro p hp
    rw [hoff] at hp
    obtain ⟨p', hp', heq⟩ := List.mem_map.mp hp
    have hpp : p' = p := Nat.eq_of_mul_eq_mul_right hS heq
    subst hpp
    exact (List.mem_range'_1.mp hp').1
  · intro p hkp hplt
    rw [hoff]
    exact List.mem_map.mpr ⟨p, List.mem_range'_1.mpr ⟨hkp, by omega⟩, rfl⟩
  · rw [hoff]
    exact (List.nodup_range' k (tp - k)).map
      (fun a b hab => Nat.eq_of_mul_eq_mul_right hS hab)
  · rw [show savedPages (Event.fetch (k * S) :: Event.saveRaw k ::
        Event.checkpoint k :: (pagingLoop S fetchAt (k + 1) (tp - (k + 1))).1) =
        k :: savedPages (pagingLoop S fetchAt (k + 1) (tp - (k + 1))).1 from rfl]
    rw [hLsv, hL2, show tp - k = (tp - (k + 1)) + 1 by omega, List.range'_succ]

/-- Witness for C1 at page size 50, checkpointed page 1, total 150
(hence 3 pages): the resumed run requests offsets 50 and 100 only. -/
theorem resume_pagination_c1_witness :
    load_checkpoint "SPARK" (.content (.obj [("SPARK",
        .obj [("last_fetched_page", .num 1), ("last_updated", .num 3)])])) =
      .ok (.num ((1 : Nat) : Int)) ∧
    ∃ tr, scrape_project 50 none 1 (fun _ => some (.obj [("total", .num 150),
        ("issues", .arr [])])) = some (tr, 3 - 1) ∧
      fetchOffsets tr = (List.range' 1 (3 - 1)).map (fun p => p * 50) ∧
      (fetchOffsets tr).head? = some (1 * 50) ∧
      (∀ p : Nat, p * 50 ∈ fetchOffsets tr → 1 ≤ p) ∧
      (∀ p : Nat, 1 ≤ p → p < 3 → p * 50 ∈ fetchOffsets tr) ∧
      (fetchOffsets tr).Nodup ∧
      savedPages tr = List.range' 1 (3 - 1) :=
  resume_pagination_c1 50 (by decide) "SPARK"
    [("SPARK", .obj [("last_fetched_page", .num 1), ("last_updated", .num 3)])]
    [("last_fetched_page", .num 1), ("last_updated", .num 3)] 1 150 3
    (fun _ => some (.obj [("total", .num 150), ("issues", .arr [])]))
    rfl rfl (fun _ => rfl) (fun j hj => by cases hj; rfl) (by decide) (by decide)
